import Mathlib

/-!
Verification of the disk-preparation scripts (src/diskprep.py and
src/disk_puri.py) against their natural-language specification.

The two scripts share the same pass-execution engine: `stream_source` and
`path_source` build a shell command string for one pass, `execute_command`
spawns it through the shell and watches its diagnostic stream for the
device-full marker, `perform_pass` dispatches on the pass type, the main
loop runs the passes in order, and `cleanup` (the SIGINT handler) removes
the registered temporary files and exits.

The embedding below follows src/diskprep.py line by line (disk_puri.py is
identical on every function a claim touches).  The filesystem is an
association list from path to byte content; Python exceptions become an
error type carried in `Except` together with the state at the moment the
exception escapes; the external writer process is a parameter
(`runOf : String → WriterRun`) mapping the spawned command to the
writer's observable behaviour (diagnostic lines and exit status).
-/

namespace DiskPrep

/-- Byte strings are lists of byte values (0..255 as `Nat`). -/
abbrev Bytes := List Nat

/-- The filesystem: an association list from path to file content.
`os.path.isfile p` is `(lookup p).isSome`. -/
abbrev FS := List (String × Bytes)

/-- Lookup of a path in the filesystem (first binding wins). -/
def FS.lookup : FS → String → Option Bytes
  | [], _ => none
  | (p, b) :: rest, q => if p = q then some b else FS.lookup rest q

/-- Python os.path.isfile: the path names an existing file. -/
def isfile (fs : FS) (p : String) : Bool := (FS.lookup fs p).isSome

/-- Python os.remove p: delete every binding of `p`. -/
def FS.removeFile : FS → String → FS
  | [], _ => []
  | (p, b) :: rest, q =>
    if p = q then FS.removeFile rest q else (p, b) :: FS.removeFile rest q

/-- Python open(p, "wb") followed by writing `b`: replace the content of `p`. -/
def FS.write (fs : FS) (p : String) (b : Bytes) : FS :=
  (p, b) :: FS.removeFile fs p

/-- The Python exceptions the engine can actually raise:
`UnboundLocalError` (reading `command` when no branch assigned it),
`ZeroDivisionError` (`1024*1024 // len(content)` with empty content),
`AttributeError` (`content.encode()` when content is `None`), and
`TypeError` (`os.path.isfile(None)`). -/
inductive PyError where
  | unboundLocal (name : String)
  | zeroDivision
  | attributeError
  | typeError
  deriving Repr, DecidableEq

/-- Interpreter state threaded through the engine: the filesystem and the
global `temp_files` registry (src/diskprep.py line 7). -/
structure St where
  fs : FS
  temp_files : List String
  deriving Repr, DecidableEq

/-- Python truthiness of the optional `count` value (`None` and the empty
string are falsy; `configure_passes` turns the empty input into `None`). -/
def pyTruthy : Option String → Bool
  | none => false
  | some s => s != ""

/-- A pass dictionary as built by `configure_passes`:
`{"type": ..., "block_size": ..., "count": ..., "content": ...}`. -/
structure PassInfo where
  type : String
  block_size : String
  count : Option String
  content : Option String
  deriving Repr, DecidableEq

/-- Python content.encode(): the UTF-8 bytes of a Python string. -/
def encodeStr (s : String) : Bytes := s.toUTF8.data.toList.map (fun b => b.toNat)

/-- The 256 MB buffer of 0xFF bytes written to `ones_source.tmp`
(src/diskprep.py line 40). -/
def onesBuffer : Bytes := List.replicate (1024 * 1024 * 256 : Nat) 255

/-- The bytes written to `string_source.tmp` for non-empty `content`
(src/diskprep.py lines 47-48): 256 chunks, each the encoded content
repeated `1024*1024 // len(content)` times (`len` counts characters). -/
def stringBufferBytes (content : String) : Bytes :=
  List.flatten (List.replicate 256
    (List.flatten (List.replicate (1024 * 1024 / content.length) (encodeStr content))))

/-- Function stream_source (src/diskprep.py lines 20-30): build the dd command for
the random and zeros pass types.  For any other type the local `command`
is never assigned, and the function raises `UnboundLocalError` (at the
`command +=` when `count` is truthy, otherwise at `return command`). -/
def stream_source (pass_type device block_size : String) (count : Option String) :
    Except PyError String :=
  let base : Option String :=
    if pass_type = "random" then
      some ("dd if=/dev/urandom of=" ++ device ++ " bs=" ++ block_size ++ " status=progress")
    else if pass_type = "zeros" then
      some ("dd if=/dev/zero of=" ++ device ++ " bs=" ++ block_size ++ " status=progress")
    else none
  match base with
  | none => Except.error (.unboundLocal "command")
  | some c =>
      Except.ok (if pyTruthy count then c ++ " count=" ++ count.getD "" else c)

/-- The command string built at src/diskprep.py lines 58-61: bounded passes
use a single `dd if=temp_file ... count=N`; unbounded passes loop `cat`
over the source file and pipe it into dd. -/
def mkPathCommand (temp_file device block_size : String) (count : Option String) : String :=
  if pyTruthy count then
    "dd if=" ++ temp_file ++ " of=" ++ device ++ " bs=" ++ block_size ++
      " count=" ++ count.getD "" ++ " status=progress"
  else
    "while :; do cat " ++ temp_file ++ "; done | dd of=" ++ device ++
      " bs=" ++ block_size ++ " status=progress"

/-- Function path_source (src/diskprep.py lines 32-63).  Effects on the state:
the ones branch materialises `ones_source.tmp` when absent and registers
it in `temp_files`; the string branch materialises `string_source.tmp`
when absent (creating the file empty first, so a crash while computing the
chunk leaves an empty file behind) and registers it; the file branch
registers nothing and returns no command when the path is not a file
(printing an error and skipping the pass). -/
def path_source (pass_type device block_size : String) (count : Option String)
    (content : Option String) (st : St) : Except (PyError × St) (St × Option String) :=
  if pass_type = "ones" then
    let st1 : St :=
      if isfile st.fs "ones_source.tmp" then st
      else { st with fs := FS.write st.fs "ones_source.tmp" onesBuffer }
    let st2 : St := { st1 with temp_files := st1.temp_files ++ ["ones_source.tmp"] }
    Except.ok (st2, some (mkPathCommand "ones_source.tmp" device block_size count))
  else if pass_type = "string" then
    if isfile st.fs "string_source.tmp" then
      Except.ok ({ st with temp_files := st.temp_files ++ ["string_source.tmp"] },
        some (mkPathCommand "string_source.tmp" device block_size count))
    else
      match content with
      | none =>
          Except.error (.attributeError,
            { st with fs := FS.write st.fs "string_source.tmp" [] })
      | some c =>
          if c.length = 0 then
            Except.error (.zeroDivision,
              { st with fs := FS.write st.fs "string_source.tmp" [] })
          else
            Except.ok
              ({ st with
                  fs := FS.write st.fs "string_source.tmp" (stringBufferBytes c),
                  temp_files := st.temp_files ++ ["string_source.tmp"] },
                some (mkPathCommand "string_source.tmp" device block_size count))
  else if pass_type = "file" then
    match content with
    | none => Except.error (.typeError, st)
    | some path =>
        if isfile st.fs path then
          Except.ok (st, some (mkPathCommand path device block_size count))
        else
          Except.ok (st, none)
  else
    Except.ok (st, some (mkPathCommand "None" device block_size count))

/-- Observable behaviour of the spawned external writer: its diagnostic
(stderr) lines and its exit status. -/
structure WriterRun where
  stderrLines : List String
  exitCode : Nat
  deriving Repr, DecidableEq

/-- Observable outcome of `execute_command` for one pass: whether
`process.terminate()` was requested, whether the disk-full message was
reported, and whether an exception escaped the function. -/
structure ExecResult where
  terminateRequested : Bool
  diskFullReported : Bool
  raised : Bool
  deriving Repr, DecidableEq

/-- The device-full marker matched against each diagnostic line. -/
def marker : String := "No space left on device"

/-- Whether `needle` matches at the head of `hay`. -/
def leadMatch : List Char → List Char → Bool
  | [], _ => true
  | _ :: _, [] => false
  | a :: as, b :: bs => a == b && leadMatch as bs

/-- Python `needle in hay`: `needle` occurs contiguously in `hay`. -/
def hasSub (needle : List Char) : List Char → Bool
  | [] => leadMatch needle []
  | b :: bs => leadMatch needle (b :: bs) || hasSub needle bs

/-- The line contains the device-full marker. -/
def containsMarker (line : String) : Bool := hasSub marker.toList line.toList

/-- The loop at src/diskprep.py lines 71-77 finds the marker in some line. -/
def scanFound : List String → Bool
  | [] => false
  | l :: ls => containsMarker l || scanFound ls

/-- Function execute_command (src/diskprep.py lines 65-90): reads the writer's
stderr line by line; on a marker line it prints the disk-full message,
calls `process.terminate()` and breaks; then `process.wait()`.  The exit
status is never inspected: `subprocess.Popen` never raises
`CalledProcessError`, so the handler at lines 81-86 is unreachable and
the function returns normally whatever the exit code was. -/
def execute_command (run : WriterRun) : ExecResult :=
  let found := scanFound run.stderrLines
  { terminateRequested := found, diskFullReported := found, raised := false }

/-- The command-building half of `perform_pass` (src/diskprep.py
lines 94-103): dispatch on the pass type; for a type outside the five
known ones no branch assigns `command` and reading it at line 106 raises
`UnboundLocalError`. -/
def build_command (p : PassInfo) (device : String) (st : St) :
    Except (PyError × St) (St × Option String) :=
  if p.type = "random" ∨ p.type = "zeros" then
    match stream_source p.type device p.block_size p.count with
    | Except.error e => Except.error (e, st)
    | Except.ok cmd => Except.ok (st, some cmd)
  else if p.type = "ones" ∨ p.type = "string" ∨ p.type = "file" then
    path_source p.type device p.block_size p.count p.content st
  else
    Except.error (.unboundLocal "command", st)

/-- Line `if command: execute_command(command)` (src/diskprep.py lines 106-107):
run the writer only when a truthy command was built.  `none` means no
external process is spawned for this pass. -/
def runIfCommand (cmd? : Option String) (runOf : String → WriterRun) : Option ExecResult :=
  match cmd? with
  | none => none
  | some cmd => if cmd != "" then some (execute_command (runOf cmd)) else none

/-- Function perform_pass (src/diskprep.py lines 92-107). -/
def perform_pass (p : PassInfo) (device : String) (runOf : String → WriterRun) (st : St) :
    Except (PyError × St) (St × Option ExecResult) :=
  match build_command p device st with
  | Except.error es => Except.error es
  | Except.ok (st1, cmd?) => Except.ok (st1, runIfCommand cmd? runOf)

/-- The pass loop of `main` (src/diskprep.py lines 193-195): run each pass
in order; an escaped exception aborts the loop; otherwise every pass runs
and the per-pass outcomes are collected in order (`none` marks a pass for
which no writer was spawned). -/
def run_passes (passes : List PassInfo) (device : String) (runOf : String → WriterRun)
    (st : St) : Except (PyError × St) (St × List (Option ExecResult)) :=
  match passes with
  | [] => Except.ok (st, [])
  | p :: rest =>
    match perform_pass p device runOf st with
    | Except.error es => Except.error es
    | Except.ok (st1, r) =>
      match run_passes rest device runOf st1 with
      | Except.error es => Except.error es
      | Except.ok (st2, rs) => Except.ok (st2, r :: rs)

/-- The loop body of `cleanup` (src/diskprep.py lines 11-13): for each
registered temp file, remove it when it exists. -/
def cleanupFold : FS → List String → FS
  | fs, [] => fs
  | fs, p :: rest =>
    cleanupFold (if isfile fs p then FS.removeFile fs p else fs) rest

/-- Function cleanup (src/diskprep.py lines 9-15), the SIGINT handler: remove the
registered temp files, print the message, and `sys.exit(0)`.  Returns the
state after removal together with the process exit code. -/
def cleanup (st : St) : St × Nat :=
  ({ st with fs := cleanupFold st.fs st.temp_files }, 0)

/-- How `subprocess.Popen` is invoked (src/diskprep.py line 68 and
src/disk_puri.py line 72). -/
inductive SpawnMode where
  | shell
  | argList
  deriving Repr, DecidableEq

/-- Call `subprocess.Popen(command, shell=True, ...)`: a single interpolated
string handed to the shell, not a structured argument list. -/
def popenSpawnMode : SpawnMode := SpawnMode.shell

/-- Modelled from the spec: the external writer (`dd`, §6 writer contract)
is not part of src/.  With a block count it reads from its input file at
most `count * block_size` bytes, stopping at end of file without
re-reading the file, so the bytes it obtains from a file of length
`fileLen` are `min (count * blockBytes) fileLen`. -/
def ddBoundedBytesRead (fileLen blockBytes count : Nat) : Nat :=
  min (count * blockBytes) fileLen

/-! ### Basic lemmas about the filesystem model -/

theorem lookup_write_self (fs : FS) (p : String) (b : Bytes) :
    FS.lookup (FS.write fs p b) p = some b := by
  simp [FS.write, FS.lookup]

theorem lookup_removeFile_self (fs : FS) (p : String) :
    FS.lookup (FS.removeFile fs p) p = none := by
  induction fs with
  | nil => rfl
  | cons e rest ih =>
    obtain ⟨a, b⟩ := e
    by_cases h : a = p
    · simpa [FS.removeFile, h] using ih
    · simpa [FS.removeFile, FS.lookup, h] using ih

theorem lookup_removeFile_ne (fs : FS) (p q : String) (h : p ≠ q) :
    FS.lookup (FS.removeFile fs p) q = FS.lookup fs q := by
  induction fs with
  | nil => rfl
  | cons e rest ih =>
    obtain ⟨a, b⟩ := e
    by_cases ha : a = p
    · subst ha
      simpa [FS.removeFile, FS.lookup, h] using ih
    · by_cases hq : a = q
      · have h2 : ¬ q = p := Ne.symm h
        simp [FS.removeFile, FS.lookup, ha, hq, h2]
      · simpa [FS.removeFile, FS.lookup, ha, hq] using ih

theorem lookup_write_ne (fs : FS) (p : String) (b : Bytes) (q : String) (h : p ≠ q) :
    FS.lookup (FS.write fs p b) q = FS.lookup fs q := by
  simp [FS.write, FS.lookup, h, lookup_removeFile_ne fs p q h]

theorem lookup_cleanupFold_not_mem (fs : FS) (l : List String) (q : String)
    (h : q ∉ l) : FS.lookup (cleanupFold fs l) q = FS.lookup fs q := by
  induction l generalizing fs with
  | nil => rfl
  | cons p rest ih =>
    have hq : q ∉ rest := fun hm => h (List.mem_cons_of_mem _ hm)
    have hpq : p ≠ q := fun he => h (he ▸ List.mem_cons_self _ _)
    simp only [cleanupFold]
    rw [ih _ hq]
    by_cases hf : isfile fs p
    · simp [hf, lookup_removeFile_ne fs p q hpq]
    · simp [hf]

theorem lookup_cleanupFold_none (fs : FS) (l : List String) (q : String)
    (h : FS.lookup fs q = none) : FS.lookup (cleanupFold fs l) q = none := by
  induction l generalizing fs with
  | nil => exact h
  | cons p rest ih =>
    simp only [cleanupFold]
    apply ih
    by_cases hpq : p = q
    · subst hpq
      by_cases hf : isfile fs p
      · simp [hf, lookup_removeFile_self]
      · simpa [hf] using h
    · by_cases hf : isfile fs p
      · simpa [hf, lookup_removeFile_ne fs p q hpq] using h
      · simpa [hf] using h

theorem lookup_cleanupFold_mem (fs : FS) (l : List String) (q : String)
    (h : q ∈ l) : FS.lookup (cleanupFold fs l) q = none := by
  induction l generalizing fs with
  | nil => cases h
  | cons p rest ih =>
    simp only [cleanupFold]
    rcases List.mem_cons.mp h with he | hm
    · subst he
      apply lookup_cleanupFold_none
      by_cases hf : isfile fs q
      · simp [hf, lookup_removeFile_self]
      · simp only [hf, if_neg Bool.false_ne_true]
        simpa [isfile, Option.isSome_iff_ne_none] using hf
    · exact ih _ hm

/-! ### Lemmas about marker scanning -/

theorem scanFound_of_mem {l : String} {ls : List String} (hm : l ∈ ls)
    (hc : containsMarker l = true) : scanFound ls = true := by
  induction ls with
  | nil => cases hm
  | cons a as ih =>
    rcases List.mem_cons.mp hm with he | h
    · subst he
      simp [scanFound, hc]
    · simp [scanFound, ih h]

/-! ### Claim C1 -/

/-- C1: the claim says a pass whose writer exits non-zero without an
exhaustion marker yields `Failed` and aborts the whole schema.  The code
contains an error handler intended for that case (src/diskprep.py
lines 81-86, `raise  # Re-raise unexpected errors`), but it catches
`subprocess.CalledProcessError`, which `subprocess.Popen`/`wait` never
raise, so the exit status is ignored.  At the failing input below the
first writer exits with status 1 and a marker-free diagnostic line, yet
`execute_command` reports nothing, raises nothing, and the second pass of
the schema still runs to completion. -/
theorem c1_code_behavior :
    (⟨["dd: error writing /dev/sdX"], 1⟩ : WriterRun).exitCode ≠ 0
  ∧ scanFound ["dd: error writing /dev/sdX"] = false
  ∧ execute_command ⟨["dd: error writing /dev/sdX"], 1⟩
      = ⟨false, false, false⟩
  ∧ run_passes [⟨"random", "1M", none, none⟩, ⟨"zeros", "1M", none, none⟩] "/dev/sdX"
      (fun _ => ⟨["dd: error writing /dev/sdX"], 1⟩) ⟨[], []⟩
      = Except.ok (⟨[], []⟩, [some ⟨false, false, false⟩, some ⟨false, false, false⟩]) :=
  ⟨by decide, by decide, rfl, rfl⟩

/-! ### Claim C2 -/

/-- C2: whenever some diagnostic line contains the device-full marker,
`execute_command` reports the disk-full condition and requests immediate
writer termination (`process.terminate()`), no error is raised (so the
outcome is never a failure), and the runner proceeds to the next pass:
running the schema `p :: rest` continues with `rest` from the state the
pass produced. -/
theorem c2_device_full (run : WriterRun)
    (h : ∃ l ∈ run.stderrLines, containsMarker l = true) :
    execute_command run = ⟨true, true, false⟩
  ∧ ∀ (p : PassInfo) (rest : List PassInfo) (device : String)
      (runOf : String → WriterRun) (st st1 : St) (r : Option ExecResult),
      perform_pass p device runOf st = Except.ok (st1, r) →
      run_passes (p :: rest) device runOf st
        = Except.map (fun pr => (pr.1, r :: pr.2)) (run_passes rest device runOf st1) := by
  constructor
  · obtain ⟨l, hm, hc⟩ := h
    simp [execute_command, scanFound_of_mem hm hc]
  · intro p rest device runOf st st1 r hperf
    simp only [run_passes, hperf]
    cases hr : run_passes rest device runOf st1 <;> simp [Except.map]

/-- Witness for C2 at a concrete writer run and a concrete one-pass schema. -/
theorem c2_device_full_witness :
    execute_command ⟨["dd: No space left on device"], 1⟩ = ⟨true, true, false⟩
  ∧ run_passes [⟨"zeros", "1M", none, none⟩] "/dev/sdX"
      (fun _ => ⟨["dd: No space left on device"], 1⟩) ⟨[], []⟩
      = Except.map (fun pr => (pr.1, some ⟨true, true, false⟩ :: pr.2))
          (run_passes [] "/dev/sdX" (fun _ => ⟨["dd: No space left on device"], 1⟩) ⟨[], []⟩) := by
  have h := c2_device_full ⟨["dd: No space left on device"], 1⟩ (by decide)
  exact ⟨h.1, h.2 ⟨"zeros", "1M", none, none⟩ [] "/dev/sdX" _ ⟨[], []⟩ ⟨[], []⟩
    (some ⟨true, true, false⟩) (by rfl)⟩

/-! ### Claim C3 -/

/-- C3 counterexample: a File pass whose content path names no existing
file is indeed skipped before any writer process is spawned (the pass
produces no command, see the `none` entry), but it is not fatal to the
run: no error of any kind is raised and the subsequent zeros pass still
executes (the `some` entry records its spawned writer).  This refutes
"the error is fatal to the whole run: ... no subsequent pass is
executed". -/
theorem c3_counterexample :
    build_command ⟨"file", "1M", none, some "/nonexistent"⟩ "/dev/sdX" ⟨[], []⟩
      = Except.ok (⟨[], []⟩, none)
  ∧ run_passes [⟨"file", "1M", none, some "/nonexistent"⟩, ⟨"zeros", "1M", none, none⟩]
      "/dev/sdX" (fun _ => ⟨[], 0⟩) ⟨[], []⟩
      = Except.ok (⟨[], []⟩, [none, some ⟨false, false, false⟩]) :=
  ⟨rfl, rfl⟩

/-- C3 amended: for a File pass whose content path names no existing
file, `path_source` returns no command and leaves the state untouched, so
no external writer is spawned for that pass and no partial write occurs;
but instead of a fatal `ConfigError` the pass is merely skipped (an error
message is printed) and the remaining passes of the schema run
normally. -/
theorem c3_amended (device block_size : String) (count : Option String) (path : String)
    (st : St) (h : isfile st.fs path = false) :
    path_source "file" device block_size count (some path) st = Except.ok (st, none)
  ∧ (∀ runOf, perform_pass ⟨"file", block_size, count, some path⟩ device runOf st
      = Except.ok (st, none))
  ∧ ∀ rest runOf, run_passes (⟨"file", block_size, count, some path⟩ :: rest) device runOf st
      = Except.map (fun pr => (pr.1, none :: pr.2)) (run_passes rest device runOf st) := by
  have hps : path_source "file" device block_size count (some path) st
      = Except.ok (st, none) := by
    simp [path_source, h]
  refine ⟨hps, ?_, ?_⟩
  · intro runOf
    simp [perform_pass, build_command, hps, runIfCommand]
  · intro rest runOf
    have hperf : perform_pass ⟨"file", block_size, count, some path⟩ device runOf st
        = Except.ok (st, none) := by
      simp [perform_pass, build_command, hps, runIfCommand]
    simp only [run_passes, hperf]
    cases hr : run_passes rest device runOf st <;> simp [Except.map]

/-- Witness for C3 amended at a concrete missing path and schema. -/
theorem c3_amended_witness :
    path_source "file" "/dev/sdX" "1M" none (some "/nonexistent") ⟨[], []⟩
      = Except.ok (⟨[], []⟩, none)
  ∧ (∀ runOf, perform_pass ⟨"file", "1M", none, some "/nonexistent"⟩ "/dev/sdX" runOf ⟨[], []⟩
      = Except.ok (⟨[], []⟩, none))
  ∧ ∀ rest runOf,
      run_passes (⟨"file", "1M", none, some "/nonexistent"⟩ :: rest) "/dev/sdX" runOf ⟨[], []⟩
      = Except.map (fun pr => (pr.1, none :: pr.2)) (run_passes rest "/dev/sdX" runOf ⟨[], []⟩) :=
  c3_amended "/dev/sdX" "1M" none "/nonexistent" ⟨[], []⟩ (by rfl)

/-! ### Claim C4 -/

/-- C4 counterexample: building the content source for a String pass with
empty content does not fail with a classified configuration error.  With
`string_source.tmp` absent, `path_source` first creates the temp file
empty (`open(..., "wb")`) and then raises an unclassified
`ZeroDivisionError` from `1024*1024 // len(content)`; run through a
schema, the exception escapes and aborts the run as an unhandled runtime
error. -/
theorem c4_counterexample :
    path_source "string" "/dev/sdX" "1M" none (some "") ⟨[], []⟩
      = Except.error (.zeroDivision, ⟨[("string_source.tmp", [])], []⟩)
  ∧ run_passes [⟨"string", "1M", none, some ""⟩] "/dev/sdX" (fun _ => ⟨[], 0⟩) ⟨[], []⟩
      = Except.error (.zeroDivision, ⟨[("string_source.tmp", [])], []⟩) :=
  ⟨rfl, rfl⟩

/-- C4 amended: a String pass with empty content raises an unclassified
`ZeroDivisionError` while materialising the temp file (which is left
behind empty), and the exception propagates unhandled, aborting the run —
there is no classified `InvalidConfig` error anywhere in the code. -/
theorem c4_amended (device block_size : String) (count : Option String) (st : St)
    (h : isfile st.fs "string_source.tmp" = false) :
    path_source "string" device block_size count (some "") st
      = Except.error (.zeroDivision, { st with fs := FS.write st.fs "string_source.tmp" [] })
  ∧ ∀ rest runOf, run_passes (⟨"string", block_size, count, some ""⟩ :: rest) device runOf st
      = Except.error (.zeroDivision, { st with fs := FS.write st.fs "string_source.tmp" [] }) := by
  have hps : path_source "string" device block_size count (some "") st
      = Except.error (.zeroDivision, { st with fs := FS.write st.fs "string_source.tmp" [] }) := by
    simp [path_source, h]
  refine ⟨hps, ?_⟩
  intro rest runOf
  simp [run_passes, perform_pass, build_command, hps]

/-- Witness for C4 amended on the empty filesystem. -/
theorem c4_amended_witness :
    path_source "string" "/dev/sdX" "1M" none (some "") ⟨[], []⟩
      = Except.error (.zeroDivision,
          { fs := FS.write ([] : FS) "string_source.tmp" [], temp_files := [] })
  ∧ ∀ rest runOf, run_passes (⟨"string", "1M", none, some ""⟩ :: rest) "/dev/sdX" runOf ⟨[], []⟩
      = Except.error (.zeroDivision,
          { fs := FS.write ([] : FS) "string_source.tmp" [], temp_files := [] }) :=
  c4_amended "/dev/sdX" "1M" none ⟨[], []⟩ (by rfl)

/-! ### Claim C5 -/

/-- C5 counterexample: a File pass with `count = 1`, `block_size = 1M` and
a 2-byte backing file builds a single bounded `dd if=... count=1` command
with no repetition construct; by the writer's read semantics it obtains
`min (1*1048576) 2 = 2` bytes, not the claimed `N*B = 1048576` — the
content does not repeat from the start of the file when `count` is
present. -/
theorem c5_counterexample :
    path_source "file" "/dev/sdX" "1M" (some "1") (some "/src.bin")
        ⟨[("/src.bin", [65, 66])], []⟩
      = Except.ok (⟨[("/src.bin", [65, 66])], []⟩,
          some "dd if=/src.bin of=/dev/sdX bs=1M count=1 status=progress")
  ∧ ddBoundedBytesRead 2 1048576 1 = 2
  ∧ ddBoundedBytesRead 2 1048576 1 ≠ 1 * 1048576 :=
  ⟨rfl, by decide, by decide⟩

/-- C5 amended: for a File pass with `count` present the built command
reads the backing file once through `dd`, so the source yields
`min (N*B, file length)` bytes — exactly `N*B` only when the file holds at
least `N*B` bytes; the repeat-from-start behaviour (the `while :; do cat
...; done` loop) is used only when `count` is absent. -/
theorem c5_amended (device block_size path cnt : String) (st : St)
    (hfile : isfile st.fs path = true) (hc : cnt ≠ "") :
    path_source "file" device block_size (some cnt) (some path) st
      = Except.ok (st, some ("dd if=" ++ path ++ " of=" ++ device ++ " bs=" ++ block_size
          ++ " count=" ++ cnt ++ " status=progress"))
  ∧ path_source "file" device block_size none (some path) st
      = Except.ok (st, some ("while :; do cat " ++ path ++ "; done | dd of=" ++ device
          ++ " bs=" ++ block_size ++ " status=progress"))
  ∧ (∀ fileLen blockBytes n : Nat,
        ddBoundedBytesRead fileLen blockBytes n = min (n * blockBytes) fileLen)
  ∧ (∀ fileLen blockBytes n : Nat, n * blockBytes ≤ fileLen →
        ddBoundedBytesRead fileLen blockBytes n = n * blockBytes) := by
  refine ⟨?_, ?_, fun _ _ _ => rfl, fun a b n hle => Nat.min_eq_left hle⟩
  · simp [path_source, hfile, mkPathCommand, pyTruthy, hc]
  · simp [path_source, hfile, mkPathCommand, pyTruthy]

/-- Witness for C5 amended at a concrete 2-byte file. -/
theorem c5_amended_witness :
    path_source "file" "/dev/sdX" "1M" (some "1") (some "/src.bin")
        ⟨[("/src.bin", [65, 66])], []⟩
      = Except.ok (⟨[("/src.bin", [65, 66])], []⟩,
          some ("dd if=" ++ "/src.bin" ++ " of=" ++ "/dev/sdX" ++ " bs=" ++ "1M"
            ++ " count=" ++ "1" ++ " status=progress"))
  ∧ path_source "file" "/dev/sdX" "1M" none (some "/src.bin")
        ⟨[("/src.bin", [65, 66])], []⟩
      = Except.ok (⟨[("/src.bin", [65, 66])], []⟩,
          some ("while :; do cat " ++ "/src.bin" ++ "; done | dd of=" ++ "/dev/sdX"
            ++ " bs=" ++ "1M" ++ " status=progress"))
  ∧ (∀ fileLen blockBytes n : Nat,
        ddBoundedBytesRead fileLen blockBytes n = min (n * blockBytes) fileLen)
  ∧ (∀ fileLen blockBytes n : Nat, n * blockBytes ≤ fileLen →
        ddBoundedBytesRead fileLen blockBytes n = n * blockBytes) :=
  c5_amended "/dev/sdX" "1M" "/src.bin" "1" ⟨[("/src.bin", [65, 66])], []⟩ (by rfl) (by decide)

/-! ### Claim C6 -/

/-- The fixed temp-file name used by the ones and string branches. -/
def tempName : String → String
  | "ones" => "ones_source.tmp"
  | _ => "string_source.tmp"

/-- C6: content generation for the Ones and String types is
deterministic.  Whenever two invocations of `path_source` agree on the
pass type and the content — the device, block size, count and the rest of
the states being arbitrary — and each one actually materialises its
buffer (the temp file is absent beforehand), the buffers written to the
temp file are byte-identical: `onesBuffer` for Ones,
`stringBufferBytes content` for String, functions of (type, content)
only. -/
theorem path_source_ones (d b : String) (c content : Option String) (st : St)
    (h : isfile st.fs "ones_source.tmp" = false) :
    path_source "ones" d b c content st
      = Except.ok ({ fs := FS.write st.fs "ones_source.tmp" onesBuffer,
                     temp_files := st.temp_files ++ ["ones_source.tmp"] },
          some (mkPathCommand "ones_source.tmp" d b c)) := by
  simp [path_source, h]

theorem path_source_string_ok (d b : String) (c : Option String) (s : String) (st : St)
    (h : isfile st.fs "string_source.tmp" = false) (hs : ¬ s.length = 0) :
    path_source "string" d b c (some s) st
      = Except.ok ({ fs := FS.write st.fs "string_source.tmp" (stringBufferBytes s),
                     temp_files := st.temp_files ++ ["string_source.tmp"] },
          some (mkPathCommand "string_source.tmp" d b c)) := by
  simp [path_source, h, hs]

theorem path_source_string_no_content (d b : String) (c : Option String) (st : St)
    (h : isfile st.fs "string_source.tmp" = false) :
    path_source "string" d b c none st
      = Except.error (.attributeError,
          { st with fs := FS.write st.fs "string_source.tmp" [] }) := by
  simp [path_source, h]

theorem path_source_string_empty (d b : String) (c : Option String) (s : String) (st : St)
    (h : isfile st.fs "string_source.tmp" = false) (hs : s.length = 0) :
    path_source "string" d b c (some s) st
      = Except.error (.zeroDivision,
          { st with fs := FS.write st.fs "string_source.tmp" [] }) := by
  simp [path_source, h, hs]

theorem c6_deterministic (ty : String) (hty : ty = "ones" ∨ ty = "string")
    (content : Option String) (d1 b1 d2 b2 : String) (c1 c2 : Option String)
    (st1 st2 : St) (r1 r2 : St × Option String)
    (h1 : isfile st1.fs (tempName ty) = false)
    (h2 : isfile st2.fs (tempName ty) = false)
    (e1 : path_source ty d1 b1 c1 content st1 = Except.ok r1)
    (e2 : path_source ty d2 b2 c2 content st2 = Except.ok r2) :
    FS.lookup r1.1.fs (tempName ty) = FS.lookup r2.1.fs (tempName ty) := by
  rcases hty with hty | hty <;> subst hty
  · have ht : tempName "ones" = "ones_source.tmp" := rfl
    rw [ht] at h1 h2 ⊢
    rw [path_source_ones d1 b1 c1 content st1 h1] at e1
    rw [path_source_ones d2 b2 c2 content st2 h2] at e2
    rw [(Except.ok.inj e1).symm, (Except.ok.inj e2).symm]
    simp [lookup_write_self]
  · have ht : tempName "string" = "string_source.tmp" := rfl
    rw [ht] at h1 h2 ⊢
    rcases content with _ | s
    · rw [path_source_string_no_content d1 b1 c1 st1 h1] at e1
      exact Except.noConfusion e1
    · by_cases hs : s.length = 0
      · rw [path_source_string_empty d1 b1 c1 s st1 h1 hs] at e1
        exact Except.noConfusion e1
      · rw [path_source_string_ok d1 b1 c1 s st1 h1 hs] at e1
        rw [path_source_string_ok d2 b2 c2 s st2 h2 hs] at e2
        rw [(Except.ok.inj e1).symm, (Except.ok.inj e2).symm]
        simp [lookup_write_self]

/-- Witness for C6 at the Ones type, two invocations differing in device,
block size and count. -/
theorem c6_deterministic_witness :
    FS.lookup (⟨[("ones_source.tmp", onesBuffer)], ["ones_source.tmp"]⟩ : St).fs
        (tempName "ones")
      = FS.lookup (⟨[("ones_source.tmp", onesBuffer)], ["ones_source.tmp"]⟩ : St).fs
        (tempName "ones") :=
  c6_deterministic "ones" (Or.inl rfl) none "/dev/sda" "1M" "/dev/sdb" "4M" none (some "7")
    ⟨[], []⟩ ⟨[], []⟩
    (⟨[("ones_source.tmp", onesBuffer)], ["ones_source.tmp"]⟩,
      some (mkPathCommand "ones_source.tmp" "/dev/sda" "1M" none))
    (⟨[("ones_source.tmp", onesBuffer)], ["ones_source.tmp"]⟩,
      some (mkPathCommand "ones_source.tmp" "/dev/sdb" "4M" (some "7")))
    (by rfl) (by rfl) (by rfl) (by rfl)

/-! ### Claim C7 -/

/-- C7 counterexample: the writer is not invoked through a structured
argument list.  `subprocess.Popen(command, shell=True, ...)` hands a
single interpolated string to the shell, and a user-supplied device path
is spliced into it verbatim: the device `/dev/sda; echo injected` makes
the built command contain `; echo injected` as shell syntax. -/
theorem c7_counterexample :
    popenSpawnMode = SpawnMode.shell
  ∧ popenSpawnMode ≠ SpawnMode.argList
  ∧ stream_source "random" "/dev/sda; echo injected" "1M" none
      = Except.ok "dd if=/dev/urandom of=/dev/sda; echo injected bs=1M status=progress"
  ∧ hasSub "; echo injected".toList
      "dd if=/dev/urandom of=/dev/sda; echo injected bs=1M status=progress".toList = true :=
  ⟨rfl, by decide, rfl, by decide⟩

/-- C7 amended: every pass command is a single string interpolated from
the user-supplied device path (and, for path sources, the source path)
and is executed through the shell (`shell=True`), so shell metacharacters
in those inputs are interpreted as shell syntax rather than being passed
as inert arguments. -/
theorem c7_amended (device block_size path : String) :
    popenSpawnMode = SpawnMode.shell
  ∧ stream_source "random" device block_size none
      = Except.ok ("dd if=/dev/urandom of=" ++ device ++ " bs=" ++ block_size
          ++ " status=progress")
  ∧ mkPathCommand path device block_size none
      = "while :; do cat " ++ path ++ "; done | dd of=" ++ device
          ++ " bs=" ++ block_size ++ " status=progress" :=
  ⟨rfl, rfl, rfl⟩

/-! ### Claim C8 -/

/-- C8 counterexample: the SIGINT handler `cleanup` does remove the
registered temp files before exiting, but it then calls `sys.exit(0)`:
the process exit code on user cancellation is 0 — the same code as normal
completion — not a distinguished non-zero code. -/
theorem c8_counterexample :
    cleanup ⟨[("ones_source.tmp", [255])], ["ones_source.tmp"]⟩
      = (⟨[], ["ones_source.tmp"]⟩, 0)
  ∧ (cleanup ⟨[("ones_source.tmp", [255])], ["ones_source.tmp"]⟩).2 = 0 :=
  ⟨rfl, rfl⟩

/-- C8 amended: on user cancellation the handler removes every registered
temp file from the filesystem before the process exits, but the exit code
is always 0, indistinguishable from normal completion (and from no pass
failure). -/
theorem c8_amended (st : St) :
    (cleanup st).2 = 0
  ∧ (cleanup st).1.temp_files = st.temp_files
  ∧ ∀ p ∈ st.temp_files, FS.lookup (cleanup st).1.fs p = none :=
  ⟨rfl, rfl, fun p hp => lookup_cleanupFold_mem st.fs st.temp_files p hp⟩

/-- Witness for C8 amended at a concrete state with one registered temp
file. -/
theorem c8_amended_witness :
    (cleanup ⟨[("ones_source.tmp", [255])], ["ones_source.tmp"]⟩).2 = 0
  ∧ (cleanup ⟨[("ones_source.tmp", [255])], ["ones_source.tmp"]⟩).1.temp_files
      = ["ones_source.tmp"]
  ∧ FS.lookup (cleanup ⟨[("ones_source.tmp", [255])], ["ones_source.tmp"]⟩).1.fs
      "ones_source.tmp" = none := by
  have h := c8_amended ⟨[("ones_source.tmp", [255])], ["ones_source.tmp"]⟩
  exact ⟨h.1, h.2.1, h.2.2 "ones_source.tmp" (by decide)⟩

/-! ### Claim C9 -/

/-- C9: pass execution is total only for the known pass types, and each
conjunct holds on exactly the domain the claim states.  For any type
other than random or zeros — including ones, string and file —
`stream_source` never assigns its local `command` and raises an unhandled
`UnboundLocalError` when it is read; and for any type outside all five of
random, zeros, ones, string, file, neither branch of `perform_pass`
assigns `command`, so reading it at `if command:` raises an unhandled
`UnboundLocalError`. -/
theorem c9_unbound_local (t : String) (hs : ¬ (t = "random" ∨ t = "zeros")) :
    (∀ (device block_size : String) (count : Option String),
        stream_source t device block_size count
          = Except.error (.unboundLocal "command"))
  ∧ (¬ (t = "ones" ∨ t = "string" ∨ t = "file") →
      ∀ (device block_size : String) (count content : Option String)
        (runOf : String → WriterRun) (st : St),
        perform_pass ⟨t, block_size, count, content⟩ device runOf st
          = Except.error (.unboundLocal "command", st)) := by
  push_neg at hs
  obtain ⟨h1, h2⟩ := hs
  constructor
  · intro device block_size count
    simp [stream_source, h1, h2]
  · intro hp device block_size count content runOf st
    push_neg at hp
    obtain ⟨h3, h4, h5⟩ := hp
    simp [perform_pass, build_command, h1, h2, h3, h4, h5]

/-- Witness for C9 at two concrete inputs, one per conjunct:
`stream_source` on the known-but-wrong type "ones" (inside the claim's
stream_source domain), and `perform_pass` on the unknown type "shred". -/
theorem c9_unbound_local_witness :
    stream_source "ones" "/dev/sdX" "1M" none
      = Except.error (.unboundLocal "command")
  ∧ perform_pass ⟨"shred", "1M", none, none⟩ "/dev/sdX" (fun _ => ⟨[], 0⟩) ⟨[], []⟩
      = Except.error (.unboundLocal "command", ⟨[], []⟩) := by
  have h1 := c9_unbound_local "ones" (by decide)
  have h2 := c9_unbound_local "shred" (by decide)
  exact ⟨h1.1 "/dev/sdX" "1M" none,
    h2.2 (by decide) "/dev/sdX" "1M" none none (fun _ => ⟨[], 0⟩) ⟨[], []⟩⟩

/-! ### Claim C10 -/

/-- Every successful `path_source` call changes the filesystem at most by
writing one of the two fixed temp names, and extends `temp_files` at most
by one of the two fixed temp names. -/
theorem path_source_shapes (ty d b : String) (c content : Option String) (st st' : St)
    (cmd? : Option String) (e : path_source ty d b c content st = Except.ok (st', cmd?)) :
    (st'.fs = st.fs ∨ st'.fs = FS.write st.fs "ones_source.tmp" onesBuffer
      ∨ ∃ s, st'.fs = FS.write st.fs "string_source.tmp" (stringBufferBytes s))
  ∧ (st'.temp_files = st.temp_files
      ∨ st'.temp_files = st.temp_files ++ ["ones_source.tmp"]
      ∨ st'.temp_files = st.temp_files ++ ["string_source.tmp"]) := by
  by_cases hty1 : ty = "ones"
  · subst hty1
    by_cases hf : isfile st.fs "ones_source.tmp"
    · have e2 : path_source "ones" d b c content st
          = Except.ok ({ st with temp_files := st.temp_files ++ ["ones_source.tmp"] },
              some (mkPathCommand "ones_source.tmp" d b c)) := by
        simp [path_source, hf]
      rw [e2] at e
      obtain ⟨h1, h2⟩ := Prod.mk.injEq .. ▸ Except.ok.inj e
      rw [← h1]
      exact ⟨Or.inl rfl, Or.inr (Or.inl rfl)⟩
    · rw [path_source_ones d b c content st (by simpa using hf)] at e
      obtain ⟨h1, h2⟩ := Prod.mk.injEq .. ▸ Except.ok.inj e
      rw [← h1]
      exact ⟨Or.inr (Or.inl rfl), Or.inr (Or.inl rfl)⟩
  · by_cases hty2 : ty = "string"
    · subst hty2
      by_cases hf : isfile st.fs "string_source.tmp"
      · have e2 : path_source "string" d b c content st
            = Except.ok ({ st with temp_files := st.temp_files ++ ["string_source.tmp"] },
                some (mkPathCommand "string_source.tmp" d b c)) := by
          simp [path_source, hf]
        rw [e2] at e
        obtain ⟨h1, h2⟩ := Prod.mk.injEq .. ▸ Except.ok.inj e
        rw [← h1]
        exact ⟨Or.inl rfl, Or.inr (Or.inr rfl)⟩
      · rcases content with _ | s
        · rw [path_source_string_no_content d b c st (by simpa using hf)] at e
          exact Except.noConfusion e
        · by_cases hs : s.length = 0
          · rw [path_source_string_empty d b c s st (by simpa using hf) hs] at e
            exact Except.noConfusion e
          · rw [path_source_string_ok d b c s st (by simpa using hf) hs] at e
            obtain ⟨h1, h2⟩ := Prod.mk.injEq .. ▸ Except.ok.inj e
            rw [← h1]
            exact ⟨Or.inr (Or.inr ⟨s, rfl⟩), Or.inr (Or.inr rfl)⟩
    · by_cases hty3 : ty = "file"
      · subst hty3
        rcases content with _ | path
        · have e2 : path_source "file" d b c none st = Except.error (.typeError, st) := by
            simp [path_source]
          rw [e2] at e
          exact Except.noConfusion e
        · by_cases hf : isfile st.fs path
          · have e2 : path_source "file" d b c (some path) st
                = Except.ok (st, some (mkPathCommand path d b c)) := by
              simp [path_source, hf]
            rw [e2] at e
            obtain ⟨h1, h2⟩ := Prod.mk.injEq .. ▸ Except.ok.inj e
            rw [← h1]
            exact ⟨Or.inl rfl, Or.inl rfl⟩
          · have e2 : path_source "file" d b c (some path) st = Except.ok (st, none) := by
              simp [path_source, hf]
            rw [e2] at e
            obtain ⟨h1, h2⟩ := Prod.mk.injEq .. ▸ Except.ok.inj e
            rw [← h1]
            exact ⟨Or.inl rfl, Or.inl rfl⟩
      · have e2 : path_source ty d b c content st
            = Except.ok (st, some (mkPathCommand "None" d b c)) := by
          simp [path_source, hty1, hty2, hty3]
        rw [e2] at e
        obtain ⟨h1, h2⟩ := Prod.mk.injEq .. ▸ Except.ok.inj e
        rw [← h1]
        exact ⟨Or.inl rfl, Or.inl rfl⟩

/-- The same shape property for a whole pass. -/
theorem perform_pass_shapes (p : PassInfo) (device : String) (runOf : String → WriterRun)
    (st st' : St) (r : Option ExecResult)
    (e : perform_pass p device runOf st = Except.ok (st', r)) :
    (st'.fs = st.fs ∨ st'.fs = FS.write st.fs "ones_source.tmp" onesBuffer
      ∨ ∃ s, st'.fs = FS.write st.fs "string_source.tmp" (stringBufferBytes s))
  ∧ (st'.temp_files = st.temp_files
      ∨ st'.temp_files = st.temp_files ++ ["ones_source.tmp"]
      ∨ st'.temp_files = st.temp_files ++ ["string_source.tmp"]) := by
  unfold perform_pass at e
  cases hb : build_command p device st with
  | error es => rw [hb] at e; exact Except.noConfusion e
  | ok v =>
    obtain ⟨st1, cmd?⟩ := v
    rw [hb] at e
    obtain ⟨h1, h2⟩ := Prod.mk.injEq .. ▸ Except.ok.inj e
    rw [← h1]
    unfold build_command at hb
    by_cases hs : p.type = "random" ∨ p.type = "zeros"
    · rw [if_pos hs] at hb
      cases hss : stream_source p.type device p.block_size p.count with
      | error e3 => rw [hss] at hb; exact Except.noConfusion hb
      | ok cmd =>
        rw [hss] at hb
        obtain ⟨h3, h4⟩ := Prod.mk.injEq .. ▸ Except.ok.inj hb
        rw [← h3]
        exact ⟨Or.inl rfl, Or.inl rfl⟩
    · rw [if_neg hs] at hb
      by_cases hp : p.type = "ones" ∨ p.type = "string" ∨ p.type = "file"
      · rw [if_pos hp] at hb
        exact path_source_shapes p.type device p.block_size p.count p.content st st1 cmd? hb
      · rw [if_neg hp] at hb
        exact Except.noConfusion hb

/-- Frame property of one pass with respect to any path other than the
two fixed temp names. -/
theorem perform_pass_frame (q : String) (hq1 : q ≠ "ones_source.tmp")
    (hq2 : q ≠ "string_source.tmp") (p : PassInfo) (device : String)
    (runOf : String → WriterRun) (st st' : St) (r : Option ExecResult)
    (e : perform_pass p device runOf st = Except.ok (st', r)) :
    FS.lookup st'.fs q = FS.lookup st.fs q
  ∧ (q ∈ st'.temp_files ↔ q ∈ st.temp_files)
  ∧ ∀ x ∈ st'.temp_files,
      x = "ones_source.tmp" ∨ x = "string_source.tmp" ∨ x ∈ st.temp_files := by
  obtain ⟨hfs, htf⟩ := perform_pass_shapes p device runOf st st' r e
  constructor
  · rcases hfs with h | h | ⟨s, h⟩
    · rw [h]
    · rw [h, lookup_write_ne st.fs _ _ q (Ne.symm hq1)]
    · rw [h, lookup_write_ne st.fs _ _ q (Ne.symm hq2)]
  constructor
  · rcases htf with h | h | h <;> rw [h] <;> simp [hq1, hq2]
  · intro x hx
    rcases htf with h | h | h <;> rw [h] at hx
    · exact Or.inr (Or.inr hx)
    · rcases List.mem_append.mp hx with hx | hx
      · exact Or.inr (Or.inr hx)
      · exact Or.inl (List.mem_singleton.mp hx)
    · rcases List.mem_append.mp hx with hx | hx
      · exact Or.inr (Or.inr hx)
      · exact Or.inr (Or.inl (List.mem_singleton.mp hx))

/-- Frame property of a whole successful run. -/
theorem run_passes_frame (q : String) (hq1 : q ≠ "ones_source.tmp")
    (hq2 : q ≠ "string_source.tmp") (passes : List PassInfo) (device : String)
    (runOf : String → WriterRun) (st st' : St) (rs : List (Option ExecResult))
    (e : run_passes passes device runOf st = Except.ok (st', rs)) :
    FS.lookup st'.fs q = FS.lookup st.fs q
  ∧ (q ∈ st'.temp_files ↔ q ∈ st.temp_files)
  ∧ ∀ x ∈ st'.temp_files,
      x = "ones_source.tmp" ∨ x = "string_source.tmp" ∨ x ∈ st.temp_files := by
  induction passes generalizing st rs with
  | nil =>
    obtain ⟨h1, h2⟩ := Prod.mk.injEq .. ▸ Except.ok.inj e
    rw [← h1]
    exact ⟨rfl, Iff.rfl, fun x hx => Or.inr (Or.inr hx)⟩
  | cons p rest ih =>
    unfold run_passes at e
    cases hp : perform_pass p device runOf st with
    | error es => simp only [hp] at e; exact Except.noConfusion e
    | ok v =>
      obtain ⟨st1, r⟩ := v
      simp only [hp] at e
      cases hr : run_passes rest device runOf st1 with
      | error es => simp only [hr] at e; exact Except.noConfusion e
      | ok w =>
        obtain ⟨st2, rs2⟩ := w
        simp only [hr] at e
        obtain ⟨h1, h2⟩ := Prod.mk.injEq .. ▸ Except.ok.inj e
        subst h1
        obtain ⟨pf1, pf2, pf3⟩ := perform_pass_frame q hq1 hq2 p device runOf st st1 r hp
        obtain ⟨rf1, rf2, rf3⟩ := ih st1 rs2 hr
        refine ⟨rf1.trans pf1, rf2.trans pf2, fun x hx => ?_⟩
        rcases rf3 x hx with h | h | h
        · exact Or.inl h
        · exact Or.inr (Or.inl h)
        · rcases pf3 x h with h4 | h4 | h4
          · exact Or.inl h4
          · exact Or.inr (Or.inl h4)
          · exact Or.inr (Or.inr h4)

/-- C10 counterexample: the last conjunct of the claim ("a user-supplied
File-pass source file ... is never deleted by cleanup on any exit path")
fails when the user-supplied path coincides with a fixed temp name.
Schema: a File pass sourcing the existing user file `ones_source.tmp`
followed by an Ones pass.  The Ones pass finds the file already present,
reuses it and registers the name in `temp_files`; the subsequent SIGINT
cleanup then deletes the user's file. -/
theorem c10_counterexample :
    FS.lookup ([("ones_source.tmp", [1, 2, 3])] : FS) "ones_source.tmp" = some [1, 2, 3]
  ∧ run_passes [⟨"file", "1M", none, some "ones_source.tmp"⟩, ⟨"ones", "1M", none, none⟩]
      "/dev/sdX" (fun _ => ⟨[], 0⟩) ⟨[("ones_source.tmp", [1, 2, 3])], []⟩
      = Except.ok (⟨[("ones_source.tmp", [1, 2, 3])], ["ones_source.tmp"]⟩,
          [some ⟨false, false, false⟩, some ⟨false, false, false⟩])
  ∧ FS.lookup (cleanup ⟨[("ones_source.tmp", [1, 2, 3])], ["ones_source.tmp"]⟩).1.fs
      "ones_source.tmp" = none :=
  ⟨rfl, rfl, rfl⟩

/-- C10 amended: `cleanup` removes only files registered in `temp_files`,
and a run only ever registers the two fixed names `ones_source.tmp` and
`string_source.tmp` there (the File branch registers nothing); hence any
path distinct from those two names — in particular a user-supplied
File-pass source file not named like a temp file — is neither registered
nor deleted: its filesystem entry survives the whole run and the cleanup
handler unchanged. -/
theorem c10_amended (q : String) (hq1 : q ≠ "ones_source.tmp")
    (hq2 : q ≠ "string_source.tmp") (passes : List PassInfo) (device : String)
    (runOf : String → WriterRun) (st st' : St) (rs : List (Option ExecResult))
    (hrun : run_passes passes device runOf st = Except.ok (st', rs))
    (hmem : q ∉ st.temp_files) :
    q ∉ st'.temp_files
  ∧ (∀ x ∈ st'.temp_files,
      x = "ones_source.tmp" ∨ x = "string_source.tmp" ∨ x ∈ st.temp_files)
  ∧ FS.lookup st'.fs q = FS.lookup st.fs q
  ∧ FS.lookup (cleanup st').1.fs q = FS.lookup st.fs q := by
  obtain ⟨hf, hiff, hsub⟩ :=
    run_passes_frame q hq1 hq2 passes device runOf st st' rs hrun
  have hnm : q ∉ st'.temp_files := fun hx => hmem (hiff.mp hx)
  refine ⟨hnm, hsub, hf, ?_⟩
  show FS.lookup (cleanupFold st'.fs st'.temp_files) q = FS.lookup st.fs q
  rw [lookup_cleanupFold_not_mem st'.fs st'.temp_files q hnm, hf]

/-- Witness for C10 amended: a one-pass Ones schema over a filesystem
holding a user file `/data/src.bin`; the user file survives the run and
the cleanup. -/
theorem c10_amended_witness :
    "/data/src.bin" ∉
      (⟨[("ones_source.tmp", [255]), ("/data/src.bin", [9])], ["ones_source.tmp"]⟩ : St).temp_files
  ∧ (∀ x ∈ (⟨[("ones_source.tmp", [255]), ("/data/src.bin", [9])],
        ["ones_source.tmp"]⟩ : St).temp_files,
      x = "ones_source.tmp" ∨ x = "string_source.tmp"
        ∨ x ∈ (⟨[("ones_source.tmp", [255]), ("/data/src.bin", [9])], []⟩ : St).temp_files)
  ∧ FS.lookup ([("ones_source.tmp", [255]), ("/data/src.bin", [9])] : FS) "/data/src.bin"
      = FS.lookup ([("ones_source.tmp", [255]), ("/data/src.bin", [9])] : FS) "/data/src.bin"
  ∧ FS.lookup (cleanup ⟨[("ones_source.tmp", [255]), ("/data/src.bin", [9])],
        ["ones_source.tmp"]⟩).1.fs "/data/src.bin"
      = FS.lookup ([("ones_source.tmp", [255]), ("/data/src.bin", [9])] : FS) "/data/src.bin" := by
  have h := c10_amended "/data/src.bin" (by decide) (by decide)
    [⟨"ones", "1M", none, none⟩] "/dev/sdX" (fun _ => ⟨[], 0⟩)
    ⟨[("ones_source.tmp", [255]), ("/data/src.bin", [9])], []⟩
    ⟨[("ones_source.tmp", [255]), ("/data/src.bin", [9])], ["ones_source.tmp"]⟩
    [some ⟨false, false, false⟩] (by rfl) (by decide)
  exact ⟨h.1, h.2.1, h.2.2.1, h.2.2.2⟩

end DiskPrep
